import Mathlib

/-
Verification of the Subspace shared-memory channel core (client side)
against its specification.

The development shallowly embeds the client and channel code:
  * common/channel.h  (struct declarations, IsPlaceholder, constants)
  * client/client.cc  (Client::Init, CreatePublisher, GetMessageBuffer,
    PublishMessageInternal, ReadMessage, ReadMessageInternal,
    ActivateReliableChannel, GetCurrentOrdinal, ReloadSubscriber)

The bodies of Channel::FindFreeSlot, Channel::ActivateSlotAndGetAnother,
Channel::NextSlot and Channel::LastSlot are not among the sources (only
their declarations in common/channel.h and their callers in client.cc
are), so those four operations are modelled from the specification
(sections 4.2 to 4.4); each such definition carries a doc comment that
starts with "Modelled from the spec:".

Shared-memory pointers are replaced by values: the three slot lists of
the CCB are Lean lists of slot records (oldest first for the active
list), a held slot pointer is a snapshot of the slot record, and slot
identity is the id field (unique per slot).  Mutation through a pointer
becomes an update of every list entry with the same id.  External
collaborators (the Unix-socket RPC to the server, file descriptors,
poll) are out of scope per the specification and enter only as oracle
inputs describing the response the server gave.
-/

namespace Subspace

/-- Flag for the flags field in MessagePrefix: a reliable activation
message (kMessageActivate in common/channel.h). -/
def kMessageActivate : Nat := 1

/-- Flag: the message came from the bridge (kMessageBridged). -/
def kMessageBridged : Nat := 2

/-- Flag: the message has been seen (kMessageSeen). -/
def kMessageSeen : Nat := 4

/-- Header stored immediately before each slot buffer (struct
MessagePrefix in common/channel.h).  The 4-byte scratch padding is
omitted from the functional model (it is scribble space for the
bridge); it is part of the byte-layout model below.  The int64 flags
word only ever holds nonnegative combinations of the three flag bits,
so it is modelled as a natural number to use bitwise and. -/
structure MessagePrefix where
  message_size : Int
  ordinal : Int
  timestamp : Int
  flags : Nat
  deriving DecidableEq, Repr

/-- Meta data for one slot (struct MessageSlot in common/channel.h),
together with the MessagePrefix of the buffer belonging to the slot
(field pfx; in the code it is reached through Channel::Prefix from the
slot id).  The owner bitset is modelled as the list of owner ids with
the bit set. -/
structure MessageSlot where
  id : Int
  ref_count : Int
  reliable_ref_count : Int
  ordinal : Int
  message_size : Int
  owners : List Nat
  pfx : MessagePrefix
  deriving DecidableEq, Repr

/-- Channel control block (struct ChannelControlBlock in
common/channel.h).  The three intrusive offset lists become Lean lists
of slot records; active_list is ordered oldest first, matching forward
traversal from active_list.first. -/
structure ChannelCCB where
  num_slots : Nat
  slot_size : Nat
  next_ordinal : Int
  total_bytes : Int
  total_messages : Int
  active_list : List MessageSlot
  busy_list : List MessageSlot
  free_list : List MessageSlot
  deriving DecidableEq, Repr

/-- Update every slot with the given id (pointer write through a slot
pointer, reflected into a value list). -/
def updSlot (l : List MessageSlot) (i : Int) (f : MessageSlot → MessageSlot) :
    List MessageSlot :=
  l.map fun s => if s.id = i then f s else s

/-- Remove the first slot with the given id from a list
(Channel::ListRemove keyed by slot identity). -/
def removeId (l : List MessageSlot) (i : Int) : List MessageSlot :=
  l.eraseP fun s => s.id == i

/-- Successor of the slot with the given id in a list (the next link of
the intrusive list, followed from the element with that id). -/
def listSucc : List MessageSlot → Int → Option MessageSlot
  | [], _ => none
  | s :: rest, i => if s.id = i then rest.head? else listSucc rest i

/-- Modelled from the spec: the active-list reclamation scan of
Channel::FindFreeSlot (spec section 4.2 step 2; the implementation is
not among the sources, only the declaration and comment at
common/channel.h lines 245-252).  Scan the active list from the oldest
slot forward for a slot with ref_count == 0; when reliable, stop with
no result as soon as a slot with reliable_ref_count > 0 is met. -/
def scanActiveForFree (reliable : Bool) : List MessageSlot → Option MessageSlot
  | [] => none
  | s :: rest =>
    if reliable = true ∧ 0 < s.reliable_ref_count then none
    else if s.ref_count = 0 then some s
    else scanActiveForFree reliable rest

/-- Modelled from the spec: Channel::FindFreeSlot (spec section 4.2;
implementation not among the sources).  Take the head of the free list
if non-empty, otherwise reclaim via the active-list scan.  On success
the slot is detached from its list, its owner bitset is reset to the
caller, and it is appended to the busy list; the returned snapshot
matches the busy-list copy. -/
def FindFreeSlot (ccb : ChannelCCB) (reliable : Bool) (owner : Nat) :
    Option MessageSlot × ChannelCCB :=
  match ccb.free_list with
  | s :: rest =>
    let s1 := { s with owners := [owner] }
    (some s1, { ccb with free_list := rest, busy_list := ccb.busy_list ++ [s1] })
  | [] =>
    match scanActiveForFree reliable ccb.active_list with
    | none => (none, ccb)
    | some s =>
      let s1 := { s with owners := [owner] }
      (some s1, { ccb with active_list := removeId ccb.active_list s.id,
                           busy_list := ccb.busy_list ++ [s1] })

/-- Result of a publish step (Channel::PublishedMessage in
common/channel.h, without the raw pointer). -/
structure PublishedMessage where
  new_slot : Option MessageSlot
  ordinal : Int
  timestamp : Int
  deriving DecidableEq, Repr

/-- Modelled from the spec: Channel::ActivateSlotAndGetAnother (spec
section 4.3; implementation not among the sources).  The message
ordinal is the pre-call value of next_ordinal, which is then advanced:
spec section 3 has next_ordinal start at 1 and Scenario A observes
ordinals 1..5, which pins this reading.  The wall clock enters as the
argument now.  The prefix takes its message_size from the slot record
(both call sites in client.cc store the size into the slot first). -/
def ActivateSlotAndGetAnother (ccb : ChannelCCB) (slot : MessageSlot)
    (reliable is_activation : Bool) (owner : Nat) ( omit_pfx : Bool)
    (now : Int) : PublishedMessage × Bool × ChannelCCB :=
  let ordinal := ccb.next_ordinal
  let timestamp := now
  let pfx1 : MessagePrefix :=
    if omit_pfx then slot.pfx
    else ⟨slot.message_size, ordinal, timestamp,
          if is_activation then kMessageActivate else 0⟩
  let slot1 : MessageSlot :=
    { slot with ordinal := ordinal, pfx := pfx1,
                owners := slot.owners.erase owner }
  let notify := !ccb.active_list.isEmpty
  let ccb1 : ChannelCCB :=
    { ccb with next_ordinal := ccb.next_ordinal + 1,
               total_bytes := ccb.total_bytes + slot.message_size,
               total_messages := ccb.total_messages + 1,
               busy_list := removeId ccb.busy_list slot.id,
               active_list := ccb.active_list ++ [slot1] }
  if reliable then (⟨none, ordinal, timestamp⟩, notify, ccb1)
  else
    match FindFreeSlot ccb1 false owner with
    | (ns, ccb2) => (⟨ns, ordinal, timestamp⟩, notify, ccb2)

/-- Release the current slot and acquire the target slot (the shared
ownership-transfer step of spec section 4.4): when the target is none
nothing changes; otherwise the current slot, if any, loses one
ref_count (and one reliable_ref_count when reliable) and the owner bit,
and the target gains them.  Returns the updated target snapshot. -/
def acquireTarget (active : List MessageSlot) (cur : Option MessageSlot)
    (target : Option MessageSlot) (reliable : Bool) (owner : Nat) :
    Option MessageSlot × List MessageSlot :=
  match target with
  | none => (none, active)
  | some t =>
    let dec := fun (s : MessageSlot) =>
      { s with ref_count := s.ref_count - 1,
               reliable_ref_count :=
                 if reliable then s.reliable_ref_count - 1
                 else s.reliable_ref_count,
               owners := s.owners.erase owner }
    let inc := fun (s : MessageSlot) =>
      { s with ref_count := s.ref_count + 1,
               reliable_ref_count :=
                 if reliable then s.reliable_ref_count + 1
                 else s.reliable_ref_count,
               owners := owner :: s.owners }
    let a1 := match cur with
      | none => active
      | some c => updSlot active c.id dec
    (some (inc t), updSlot a1 t.id inc)

/-- Modelled from the spec: Channel::NextSlot (spec section 4.4;
implementation not among the sources, declaration at common/channel.h
line 283).  The target is the head of the active list when no slot is
held, otherwise the successor of the held slot; none at the end of the
list, in which case no ownership changes. -/
def NextSlot (active : List MessageSlot) (cur : Option MessageSlot)
    (reliable : Bool) (owner : Nat) : Option MessageSlot × List MessageSlot :=
  let target := match cur with
    | none => active.head?
    | some c => listSucc active c.id
  acquireTarget active cur target reliable owner

/-- Modelled from the spec: Channel::LastSlot (spec section 4.4).  The
target is the last slot of the active list, or none when it is empty. -/
def LastSlot (active : List MessageSlot) (cur : Option MessageSlot)
    (reliable : Bool) (owner : Nat) : Option MessageSlot × List MessageSlot :=
  acquireTarget active cur active.getLast? reliable owner

/-- Structured stand-ins for the absl error statuses raised by the
client functions; the carried message strings are dropped. -/
inductive Err where
  | alreadyConnected
  | rpcFailed
  | noFreeSlots
  | noBuffer
  | outOfSlots
  | noCurrentSlot
  deriving DecidableEq, Repr

/-- Message value returned to callers (class Message in the client
API).  has_buffer records whether a non-null buffer pointer was
attached; the default value is the empty Message() of a drained or
placeholder read. -/
structure Message where
  length : Int := 0
  ordinal : Int := 0
  timestamp : Int := 0
  has_buffer : Bool := false
  deriving DecidableEq, Repr

/-- Empty message, Message() in the code. -/
def Message.empty : Message := {}

/-- Per-process subscriber handle state (class Subscriber fields used
by client.cc): server-assigned id, reliability, the mapped channel
sizing, the SCB update counter cache, the held slot snapshot, and
whether a dropped-message callback is registered for it in the
client's dropped_message_callbacks_ map. -/
structure SubscriberState where
  subscriber_id : Nat
  is_reliable : Bool
  num_slots : Nat
  slot_size : Nat
  num_updates : Nat
  current_slot : Option MessageSlot
  has_drop_callback : Bool
  deriving DecidableEq, Repr

/-- Channel::IsPlaceholder (common/channel.h line 228): a placeholder
is a channel with no slots, created for a subscriber when there are no
publishers. -/
def IsPlaceholder (sub : SubscriberState) : Bool :=
  decide (sub.num_slots = 0)

/-- Per-process publisher handle state (class Publisher fields used by
client.cc): server-assigned id, reliability, the held slot snapshot,
and the count of subscriber trigger fds currently loaded
(Publisher::NumSubscribers). -/
structure PublisherState where
  publisher_id : Nat
  is_reliable : Bool
  current_slot : Option MessageSlot
  num_subscribers : Nat
  deriving DecidableEq, Repr

/-- ClientChannel::GetCurrentBufferAddress: the buffer address for the
held slot, none for a null pointer.  A non-null address is identified
by the slot id it is computed from. -/
def getCurrentBufferAddress (cur : Option MessageSlot) : Option Int :=
  cur.map fun s => s.id

/-- Client::GetCurrentOrdinal (client.cc lines 481-487): -1 when the
subscriber holds no slot, otherwise the ordinal of the held slot. -/
def GetCurrentOrdinal (sub : SubscriberState) : Int :=
  match sub.current_slot with
  | none => -1
  | some slot => slot.ordinal

/-- Client connection state used by Client::Init: whether the Unix
socket is connected and the stored SCB file descriptor. -/
structure ClientState where
  connected : Bool
  scb_fd : Option Nat
  deriving DecidableEq, Repr

deriving instance DecidableEq for Except

/-- Outcome of Client::Init: the returned status, the client state
afterwards, and whether a connection attempt (socket_.Connect) was
performed. -/
structure InitResult where
  status : Except Err Unit
  client : ClientState
  attempted_connect : Bool
  deriving DecidableEq, Repr

/-- Client::Init (client.cc lines 24-46).  The server interaction is
oracle input: connect_ok is the outcome of socket_.Connect, rpc_ok the
outcome of SendRequestReceiveResponse (which closes the socket on
failure), resp_scb_fd the SCB descriptor of the init response. -/
def ClientInit (c : ClientState) (connect_ok rpc_ok : Bool)
    (resp_scb_fd : Nat) : InitResult :=
  if c.connected then ⟨.error .alreadyConnected, c, false⟩
  else if connect_ok = false then ⟨.error .rpcFailed, c, true⟩
  else
    let c1 := { c with connected := true }
    if rpc_ok = false then
      ⟨.error .rpcFailed, { c1 with connected := false }, true⟩
    else ⟨.ok (), { c1 with scb_fd := some resp_scb_fd }, true⟩

/-- Client::GetMessageBuffer (client.cc lines 200-234).  ClearPollFd
and ReloadSubscribersIfNecessary only refresh trigger fds; the model
takes num_subscribers as already refreshed.  A reliable publisher
holding no slot first refuses when there are no subscribers, then
tries FindFreeSlot(true, id); failure of either is surfaced as ok-none
(absence of a buffer), not as an error. -/
def GetMessageBuffer (pub : PublisherState) (ccb : ChannelCCB) :
    Except Err (Option Int) × PublisherState × ChannelCCB :=
  if pub.is_reliable = true ∧ pub.current_slot = none then
    if pub.num_subscribers = 0 then (.ok none, pub, ccb)
    else
      match FindFreeSlot ccb true pub.publisher_id with
      | (none, ccb1) => (.ok none, pub, ccb1)
      | (some s, ccb1) =>
        let pub1 := { pub with current_slot := some s }
        match getCurrentBufferAddress pub1.current_slot with
        | none => (.error .noBuffer, pub1, ccb1)
        | some a => (.ok (some a), pub1, ccb1)
  else
    match getCurrentBufferAddress pub.current_slot with
    | none => (.error .noBuffer, pub, ccb)
    | some a => (.ok (some a), pub, ccb)

/-- Client::PublishMessageInternal (client.cc lines 241-292).
SetMessageSize stores the size through the current slot pointer before
the publish step.  When the publish step yields no replacement slot,
a reliable publisher still gets an ok Message carrying the ordinal and
timestamp, an unreliable one gets the out-of-slots error.  The C++
dereferences the current slot unconditionally; the model flags the
slotless state as an error case of its own. -/
def PublishMessageInternal (pub : PublisherState) (ccb : ChannelCCB)
    (message_size : Int) ( omit_pfx : Bool) (now : Int) :
    Except Err Message × PublisherState × ChannelCCB :=
  match pub.current_slot with
  | none => (.error .noCurrentSlot, pub, ccb)
  | some slot =>
    let slot1 := { slot with message_size := message_size }
    let r := ActivateSlotAndGetAnother ccb slot1 pub.is_reliable false
      pub.publisher_id omit_pfx now
    let msg := r.1
    let ccb1 := r.2.2
    let pub1 := { pub with current_slot := msg.new_slot }
    match msg.new_slot with
    | none =>
      if pub.is_reliable then
        (.ok ⟨message_size, msg.ordinal, msg.timestamp, false⟩, pub1, ccb1)
      else (.error .outOfSlots, pub1, ccb1)
    | some _ =>
      (.ok ⟨message_size, msg.ordinal, msg.timestamp, false⟩, pub1, ccb1)

/-- Client::ActivateReliableChannel (client.cc lines 622-645): take a
slot reliably, store message_size 1 through the slot pointer, publish
it as an activation message, then drop the current slot (the reliable
publisher returns to Idle). -/
def ActivateReliableChannel (pub : PublisherState) (ccb : ChannelCCB)
    (now : Int) : Except Err (PublisherState × ChannelCCB) :=
  match FindFreeSlot ccb true pub.publisher_id with
  | (none, _) => .error .noFreeSlots
  | (some slot, ccb1) =>
    let pub1 := { pub with current_slot := some slot }
    match getCurrentBufferAddress pub1.current_slot with
    | none => .error .noBuffer
    | some _ =>
      let slot1 := { slot with message_size := 1 }
      let r := ActivateSlotAndGetAnother ccb1 slot1 true true
        pub.publisher_id false now
      let pub2 := { pub1 with current_slot := none }
      .ok (pub2, r.2.2)

/-- Slot setup part of Client::CreatePublisher (client.cc lines
117-130): an unreliable publisher is given a slot immediately; a
reliable one instead sends the single activation message and starts
with no slot. -/
def CreatePublisherSlots (pub : PublisherState) (ccb : ChannelCCB)
    (now : Int) : Except Err (PublisherState × ChannelCCB) :=
  if pub.is_reliable = false then
    match FindFreeSlot ccb false pub.publisher_id with
    | (none, _) => .error .noFreeSlots
    | (some slot, ccb1) => .ok ({ pub with current_slot := some slot }, ccb1)
  else
    ActivateReliableChannel pub ccb now

/-- Read mode of Client::ReadMessage (enum ReadMode). -/
inductive ReadMode where
  | kReadNext
  | kReadNewest
  deriving DecidableEq, Repr

/-- Result of a read: the Message handed to the caller, the subscriber
state and active list afterwards, the arguments of every invocation of
the dropped-message callback made during the call (in order), and the
slot the returned Message was taken from (none for an empty read). -/
structure ReadResult where
  msg : Message
  sub : SubscriberState
  active : List MessageSlot
  dropCalls : List Int
  from_slot : Option MessageSlot
  deriving DecidableEq, Repr

/-- Mode switch of Client::ReadMessageInternal: fetch the next slot for
kReadNext, the newest for kReadNewest. -/
def readStep (sub : SubscriberState) (active : List MessageSlot)
    (mode : ReadMode) : Option MessageSlot × List MessageSlot :=
  match mode with
  | .kReadNext => NextSlot active sub.current_slot sub.is_reliable
      sub.subscriber_id
  | .kReadNewest => LastSlot active sub.current_slot sub.is_reliable
      sub.subscriber_id

/-- Client::ReadMessageInternal (client.cc lines 346-407), with the
self-recursion (the activation-message skip) bounded by fuel; fuel
active.length + 1 is what the finite active list guarantees to the C++
recursion in kReadNext mode.  Exhausted fuel yields an empty read.
Steps: remember the ordinal of the held slot (-1 when none); fetch the
next or newest slot; when there is none, return the empty Message (the
reliable publishers are triggered, which leaves this state); otherwise
hold the new slot, invoke the dropped-message callback with
new_slot.ordinal - last_ordinal if the ordinal is not the successor of
last_ordinal and a callback is registered, skip the message when its
prefix carries the Activate flag and pass_act is false, and otherwise
return it. -/
def ReadMessageInternalF : Nat → SubscriberState → List MessageSlot →
    ReadMode → Bool → Bool → ReadResult
  | 0, sub, active, _, _, _ => ⟨Message.empty, sub, active, [], none⟩
  | fuel + 1, sub, active, mode, pass_act, _clear_trigger =>
    let last_ordinal : Int := match sub.current_slot with
      | none => -1
      | some c => c.ordinal
    match readStep sub active mode with
    | (none, active1) => ⟨Message.empty, sub, active1, [], none⟩
    | (some ns, active1) =>
      let sub1 := { sub with current_slot := some ns }
      let drops : List Int :=
        if last_ordinal ≠ -1 ∧ ns.ordinal ≠ last_ordinal + 1 ∧
            sub.has_drop_callback = true
        then [ns.ordinal - last_ordinal] else []
      if ns.pfx.flags &&& kMessageActivate ≠ 0 ∧ pass_act = false then
        let r := ReadMessageInternalF fuel sub1 active1 mode false false
        { r with dropCalls := drops ++ r.dropCalls }
      else
        ⟨⟨ns.message_size, ns.ordinal, ns.pfx.timestamp, true⟩, sub1,
          active1, drops, some ns⟩

/-- Sizing answer of the server to a re-issued create_subscriber
request (oracle input for ReloadSubscriber): whether the round-trip
succeeded and the slot parameters it reported (num_slots stays 0 when
there is still no publisher). -/
structure ServerPubResponse where
  ok : Bool
  num_slots : Nat
  slot_size : Nat
  deriving DecidableEq, Repr

/-- Client::ReloadSubscriber (client.cc lines 489-543).  When the SCB
publisher-update counter equals the cached one, nothing happens.
Otherwise the cache is bumped, the server is re-queried and, on
success, the channel is remapped with the reported sizes.  The RPC and
remap plumbing is folded into resp.ok.  Returns the status together
with the subscriber state as mutated so far. -/
def ReloadSubscriber (sub : SubscriberState) (scb_pub_updates : Nat)
    (resp : ServerPubResponse) : Except Err Unit × SubscriberState :=
  if sub.num_updates = scb_pub_updates then (.ok (), sub)
  else
    let sub1 := { sub with num_updates := scb_pub_updates }
    if resp.ok = false then (.error .rpcFailed, sub1)
    else (.ok (), { sub1 with num_slots := resp.num_slots,
                              slot_size := resp.slot_size })

/-- Tail of Client::ReadMessage after the placeholder block:
ReloadReliablePublishersIfNecessary (oracle outcome reload2_ok)
followed by ReadMessageInternal with pass_activation false and
clear_trigger true. -/
def readAfterReload (sub : SubscriberState) (active : List MessageSlot)
    (reload2_ok : Bool) (mode : ReadMode) : Except Err ReadResult :=
  if reload2_ok = false then .error .rpcFailed
  else .ok (ReadMessageInternalF (active.length + 1) sub active mode
    false true)

/-- Client::ReadMessage (client.cc lines 409-431).  A placeholder
subscriber first re-queries the server; if that fails or the channel
is still a placeholder, the read yields the empty Message and no
error. -/
def ReadMessage (sub : SubscriberState) (active : List MessageSlot)
    (scb_pub_updates : Nat) (resp : ServerPubResponse)
    (reload2_ok : Bool) (mode : ReadMode) : Except Err ReadResult :=
  if IsPlaceholder sub then
    match ReloadSubscriber sub scb_pub_updates resp with
    | (.error _, sub1) => .ok ⟨Message.empty, sub1, active, [], none⟩
    | (.ok _, sub1) =>
      if IsPlaceholder sub1 then .ok ⟨Message.empty, sub1, active, [], none⟩
      else readAfterReload sub1 active reload2_ok mode
  else readAfterReload sub active reload2_ok mode

/-- Field names of struct MessagePrefix in declaration order. -/
inductive PrefixField where
  | padding
  | message_size
  | ordinal
  | timestamp
  | flags
  deriving DecidableEq, Repr

/-- Declared field list of struct MessagePrefix (common/channel.h lines
36-42) with the byte size of each field on the supported LP64
platforms: int32_t is 4 bytes, int64_t and uint64_t are 8. -/
def messagePrefixLayout : List (PrefixField × Nat) :=
  [(.padding, 4), (.message_size, 4), (.ordinal, 8), (.timestamp, 8),
   (.flags, 8)]

/-- Round offset up to a multiple of the alignment. -/
def alignUp (off a : Nat) : Nat := (off + a - 1) / a * a

/-- Offsets the C struct layout rule assigns to naturally aligned
fields laid out in order from a starting offset. -/
def offsetsFrom (off : Nat) : List (PrefixField × Nat) →
    List (PrefixField × Nat)
  | [] => []
  | (f, sz) :: rest =>
    let o := alignUp off sz
    (f, o) :: offsetsFrom (o + sz) rest

/-- Field offsets of a struct laid out from offset 0. -/
def fieldOffsets (l : List (PrefixField × Nat)) : List (PrefixField × Nat) :=
  offsetsFrom 0 l

/-- Offset just past the last field. -/
def structEnd (off : Nat) : List (PrefixField × Nat) → Nat
  | [] => off
  | (_, sz) :: rest => structEnd (alignUp off sz + sz) rest

/-- Alignment of the struct: the largest field alignment. -/
def maxAlign (l : List (PrefixField × Nat)) : Nat :=
  l.foldl (fun m p => max m p.2) 1

/-- Size the C layout rule gives the struct: the end offset rounded up
to the struct alignment. -/
def sizeofStruct (l : List (PrefixField × Nat)) : Nat :=
  alignUp (structEnd 0 l) (maxAlign l)

/-! Theorems -/

/-- FindFreeSlot never touches the ordinal counter: slot allocation
consumes no ordinal. -/
lemma findFreeSlot_next_ordinal (ccb : ChannelCCB) (rel : Bool) (owner : Nat) :
    (FindFreeSlot ccb rel owner).2.next_ordinal = ccb.next_ordinal := by
  unfold FindFreeSlot
  rcases h : ccb.free_list with _ | ⟨s, rest⟩
  · rcases h2 : scanActiveForFree rel ccb.active_list with _ | s <;> simp
  · simp

/-- When FindFreeSlot yields no slot it leaves the CCB unchanged. -/
lemma findFreeSlot_none_ccb (ccb : ChannelCCB) (rel : Bool) (owner : Nat)
    (h : (FindFreeSlot ccb rel owner).1 = none) :
    (FindFreeSlot ccb rel owner).2 = ccb := by
  unfold FindFreeSlot at h ⊢
  rcases hf : ccb.free_list with _ | ⟨s, rest⟩
  · rcases h2 : scanActiveForFree rel ccb.active_list with _ | s
    · simp
    · simp [hf, h2] at h
  · simp [hf] at h

/-- Slot with ordinal 1 held by the drop-detection subscriber of
Scenario D. -/
def dropHeldSlot : MessageSlot := ⟨1, 1, 0, 1, 8, [7], ⟨8, 1, 100, 0⟩⟩

/-- Slot with ordinal 9, the next the subscriber will observe after the
ring wrapped (ordinals 2..8 were overwritten). -/
def dropNextSlot : MessageSlot := ⟨2, 0, 0, 9, 8, [], ⟨8, 9, 900, 0⟩⟩

/-- Newest slot of the wrapped ring, ordinal 10. -/
def dropTailSlot : MessageSlot := ⟨0, 0, 0, 10, 8, [], ⟨8, 10, 1000, 0⟩⟩

/-- Scenario D subscriber: unreliable, holds the ordinal-1 slot, has a
dropped-message callback registered. -/
def dropSub : SubscriberState := ⟨7, false, 3, 64, 0, some dropHeldSlot, true⟩

/-- C1: the dropped-message callback does not receive the gap size.
After observing ordinal 1, a read that lands on ordinal 9 (ordinals
2..8 dropped, gap 7 = 9 - 1 - 1) invokes the callback exactly once,
but with 8 = 9 - 1: ReadMessageInternal passes
new_slot.ordinal - last_ordinal, one more than the number of dropped
messages its own comment promises. -/
theorem drop_callback_gets_ordinal_delta_not_gap :
    (ReadMessageInternalF 4 dropSub [dropHeldSlot, dropNextSlot, dropTailSlot]
        .kReadNext false true).dropCalls = [8] ∧
    (ReadMessageInternalF 4 dropSub [dropHeldSlot, dropNextSlot, dropTailSlot]
        .kReadNext false true).msg.ordinal = 9 ∧
    (8 : Int) ≠ 9 - 1 - 1 := by
  refine ⟨by decide, by decide, by decide⟩

/-- C8: the MessagePrefix layout.  Natural alignment of the declared
fields gives offsets pad 0, size 4, ordinal 8, timestamp 16, flags 24,
total size 32 bytes, in the declared order, and the flag constants are
Activate 1, Bridged 2, Seen 4. -/
theorem message_prefix_layout :
    sizeofStruct messagePrefixLayout = 32 ∧
    fieldOffsets messagePrefixLayout =
      [(.padding, 0), (.message_size, 4), (.ordinal, 8), (.timestamp, 16),
       (.flags, 24)] ∧
    messagePrefixLayout.map Prod.fst =
      [.padding, .message_size, .ordinal, .timestamp, .flags] ∧
    kMessageActivate = 1 ∧ kMessageBridged = 2 ∧ kMessageSeen = 4 := by
  refine ⟨by decide, by decide, by decide, rfl, rfl, rfl⟩

/-- C9: calling Init while the socket is already connected returns the
already-connected error, attempts no new connection and leaves the
client state (connection and stored SCB descriptor) unchanged. -/
theorem init_twice_errors_without_connecting (c : ClientState)
    (connect_ok rpc_ok : Bool) (fd : Nat) (h : c.connected = true) :
    ClientInit c connect_ok rpc_ok fd =
      ⟨.error .alreadyConnected, c, false⟩ := by
  simp [ClientInit, h]

/-- Witness for C9 at a connected client holding SCB descriptor 5. -/
theorem init_twice_errors_without_connecting_witness :
    (⟨true, some 5⟩ : ClientState).connected = true ∧
    ClientInit ⟨true, some 5⟩ true true 9 =
      ⟨.error .alreadyConnected, ⟨true, some 5⟩, false⟩ :=
  ⟨rfl, init_twice_errors_without_connecting ⟨true, some 5⟩ true true 9 rfl⟩

/-- C10: GetCurrentOrdinal is -1 exactly when no message has been read
(no held slot), and the held slot ordinal otherwise. -/
theorem getCurrentOrdinal_spec (sub : SubscriberState) :
    (sub.current_slot = none → GetCurrentOrdinal sub = -1) ∧
    (∀ s, sub.current_slot = some s → GetCurrentOrdinal sub = s.ordinal) := by
  constructor
  · intro h
    simp [GetCurrentOrdinal, h]
  · intro s h
    simp [GetCurrentOrdinal, h]

/-- Witness for C10 at a subscriber with no held slot. -/
theorem getCurrentOrdinal_spec_witness :
    (⟨7, false, 3, 64, 0, none, false⟩ : SubscriberState).current_slot = none ∧
    GetCurrentOrdinal ⟨7, false, 3, 64, 0, none, false⟩ = -1 :=
  ⟨rfl, (getCurrentOrdinal_spec ⟨7, false, 3, 64, 0, none, false⟩).1 rfl⟩

/-- C2: a buffer request of a reliable publisher that holds no slot and
cannot obtain one — because the channel has zero subscribers, or
because FindFreeSlot yields nothing — returns ok-none (absence of a
buffer, not an error), and consumes no ordinal: next_ordinal is
unchanged. -/
theorem reliable_buffer_request_backpressure (pub : PublisherState)
    (ccb : ChannelCCB) (hrel : pub.is_reliable = true)
    (hcur : pub.current_slot = none)
    (hfail : pub.num_subscribers = 0 ∨
      (FindFreeSlot ccb true pub.publisher_id).1 = none) :
    (GetMessageBuffer pub ccb).1 = .ok none ∧
    (GetMessageBuffer pub ccb).2.2.next_ordinal = ccb.next_ordinal := by
  unfold GetMessageBuffer
  rw [if_pos ⟨hrel, hcur⟩]
  by_cases hs : pub.num_subscribers = 0
  · rw [if_pos hs]
    exact ⟨rfl, rfl⟩
  · rw [if_neg hs]
    rcases hfail with hfail | hfail
    · exact absurd hfail hs
    · rcases hFF : FindFreeSlot ccb true pub.publisher_id with ⟨os, ccb1⟩
      rw [hFF] at hfail
      simp only at hfail
      subst hfail
      have h2 : ccb1 = ccb := by
        have := findFreeSlot_none_ccb ccb true pub.publisher_id
          (by rw [hFF])
        rw [hFF] at this
        exact this
      subst h2
      exact ⟨rfl, rfl⟩

/-- Witness for C2: a reliable publisher with no slot on a channel with
zero subscribers. -/
theorem reliable_buffer_request_backpressure_witness :
    (⟨3, true, none, 0⟩ : PublisherState).is_reliable = true ∧
    (⟨3, true, none, 0⟩ : PublisherState).current_slot = none ∧
    (⟨3, true, none, 0⟩ : PublisherState).num_subscribers = 0 ∧
    (GetMessageBuffer ⟨3, true, none, 0⟩ ⟨2, 64, 1, 0, 0, [], [], []⟩).1 =
        .ok none ∧
    (GetMessageBuffer ⟨3, true, none, 0⟩
        ⟨2, 64, 1, 0, 0, [], [], []⟩).2.2.next_ordinal = 1 :=
  ⟨rfl, rfl, rfl,
    (reliable_buffer_request_backpressure ⟨3, true, none, 0⟩
      ⟨2, 64, 1, 0, 0, [], [], []⟩ rfl rfl (Or.inl rfl)).1,
    (reliable_buffer_request_backpressure ⟨3, true, none, 0⟩
      ⟨2, 64, 1, 0, 0, [], [], []⟩ rfl rfl (Or.inl rfl)).2⟩

/-- C5: when the publish step yields no replacement slot, an unreliable
publisher gets the fatal out-of-slots error, while a reliable publisher
(whose publish step never hands out a replacement) still receives an ok
Message carrying the ordinal taken from next_ordinal and the publish
timestamp, and simply holds no slot afterwards. -/
theorem publish_slot_exhaustion_outcomes (pub : PublisherState)
    (ccb : ChannelCCB) (msize now : Int) (slot : MessageSlot)
    (hcur : pub.current_slot = some slot) :
    (pub.is_reliable = false →
      (ActivateSlotAndGetAnother ccb { slot with message_size := msize }
        false false pub.publisher_id false now).1.new_slot = none →
      (PublishMessageInternal pub ccb msize false now).1 =
        .error .outOfSlots) ∧
    (pub.is_reliable = true →
      (PublishMessageInternal pub ccb msize false now).1 =
        .ok ⟨msize, ccb.next_ordinal, now, false⟩ ∧
      (PublishMessageInternal pub ccb msize false now).2.1.current_slot =
        none) := by
  constructor
  · intro hrel hnone
    unfold PublishMessageInternal
    rw [hcur]
    simp only [hrel]
    rcases hact : ActivateSlotAndGetAnother ccb
        { slot with message_size := msize } false false pub.publisher_id
        false now with ⟨msg, nb, ccb1⟩
    rw [hact] at hnone
    simp only at hnone
    simp only [hnone, hrel]
    simp
  · intro hrel
    unfold PublishMessageInternal
    rw [hcur]
    simp only [hrel]
    unfold ActivateSlotAndGetAnother
    simp

/-- Witness slot of a one-slot channel whose only slot is referenced by
a subscriber while the publisher republishes it is built from. -/
def exhaustSlot : MessageSlot := ⟨1, 1, 0, 0, 0, [3], ⟨0, 0, 0, 0⟩⟩

/-- Witness for C5: an unreliable publisher on a one-slot channel where
after publishing the only slot is still referenced, so no replacement
slot exists and the publish errors out of slots. -/
theorem publish_slot_exhaustion_outcomes_witness :
    (⟨3, false, some exhaustSlot, 0⟩ : PublisherState).current_slot =
        some exhaustSlot ∧
    (⟨3, false, some exhaustSlot, 0⟩ : PublisherState).is_reliable = false ∧
    (ActivateSlotAndGetAnother ⟨1, 64, 5, 0, 0, [], [exhaustSlot], []⟩
      { exhaustSlot with message_size := 8 } false false 3 false
      700).1.new_slot = none ∧
    (PublishMessageInternal ⟨3, false, some exhaustSlot, 0⟩
      ⟨1, 64, 5, 0, 0, [], [exhaustSlot], []⟩ 8 false 700).1 =
        .error .outOfSlots :=
  ⟨rfl, rfl, by decide,
    (publish_slot_exhaustion_outcomes ⟨3, false, some exhaustSlot, 0⟩
      ⟨1, 64, 5, 0, 0, [], [exhaustSlot], []⟩ 8 700 exhaustSlot rfl).1
      rfl (by decide)⟩

/-- C6: a read on a placeholder subscriber for which the re-query finds
the channel still publisher-less (the server reports num_slots 0)
returns the empty Message with an ok status, and the subscriber remains
a placeholder. -/
theorem placeholder_read_is_empty_not_error (sub : SubscriberState)
    (active : List MessageSlot) (scb : Nat) (resp : ServerPubResponse)
    (r2 : Bool) (mode : ReadMode) (hp : IsPlaceholder sub = true)
    (hok : resp.ok = true) (hns : resp.num_slots = 0) :
    ∃ sub1, ReadMessage sub active scb resp r2 mode =
        .ok ⟨Message.empty, sub1, active, [], none⟩ ∧
      IsPlaceholder sub1 = true := by
  unfold ReadMessage ReloadSubscriber
  rw [if_pos hp]
  by_cases h : sub.num_updates = scb
  · rw [if_pos h]
    exact ⟨sub, by simp [hp], hp⟩
  · rw [if_neg h, hok]
    refine ⟨{ sub with num_updates := scb, num_slots := resp.num_slots, slot_size := resp.slot_size }, ?_, ?_⟩
    · simp [IsPlaceholder, hns]
    · simp [IsPlaceholder, hns]

/-- Witness for C6: a placeholder subscriber whose re-query succeeds but
still reports no publisher. -/
theorem placeholder_read_is_empty_not_error_witness :
    IsPlaceholder ⟨7, false, 0, 0, 0, none, false⟩ = true ∧
    (⟨true, 0, 0⟩ : ServerPubResponse).ok = true ∧
    (⟨true, 0, 0⟩ : ServerPubResponse).num_slots = 0 ∧
    ∃ sub1, ReadMessage ⟨7, false, 0, 0, 0, none, false⟩ [] 4 ⟨true, 0, 0⟩
        true .kReadNext = .ok ⟨Message.empty, sub1, [], [], none⟩ ∧
      IsPlaceholder sub1 = true :=
  ⟨rfl, rfl, rfl,
    placeholder_read_is_empty_not_error ⟨7, false, 0, 0, 0, none, false⟩ []
      4 ⟨true, 0, 0⟩ true .kReadNext rfl rfl rfl⟩

/-- The reclamation scan finds nothing when every active slot is still
referenced. -/
lemma scan_exhaust (rel : Bool) (l : List MessageSlot)
    (h : ∀ t ∈ l, t.ref_count ≠ 0) : scanActiveForFree rel l = none := by
  induction l with
  | nil => rfl
  | cons s rest ih =>
    unfold scanActiveForFree
    by_cases hstop : rel = true ∧ 0 < s.reliable_ref_count
    · rw [if_pos hstop]
    · rw [if_neg hstop, if_neg (h s (List.mem_cons_self s rest))]
      exact ih fun t ht => h t (List.mem_cons_of_mem s ht)

/-- The reliable reclamation scan stops, with no result, at the first
slot owing a reliable read, however many unreclaimable slots precede
it and whatever follows it. -/
lemma scan_stops (pre : List MessageSlot) (s : MessageSlot)
    (post : List MessageSlot)
    (hpre : ∀ t ∈ pre, t.ref_count ≠ 0 ∧ t.reliable_ref_count ≤ 0)
    (hs : 0 < s.reliable_ref_count) :
    scanActiveForFree true (pre ++ s :: post) = none := by
  induction pre with
  | nil =>
    rw [List.nil_append]
    unfold scanActiveForFree
    exact if_pos ⟨rfl, hs⟩
  | cons t rest ih =>
    have ht := hpre t (List.mem_cons_self t rest)
    rw [List.cons_append]
    unfold scanActiveForFree
    rw [if_neg (fun hc : true = true ∧ 0 < t.reliable_ref_count =>
        absurd hc.2 (not_lt.mpr ht.2)),
      if_neg ht.1]
    exact ih fun u hu => hpre u (List.mem_cons_of_mem t hu)

/-- The reclamation scan returns the first unreferenced slot when no
earlier slot blocks it and, for a reliable scan, no stopping slot is
met up to and including it. -/
lemma scan_finds (rel : Bool) (pre : List MessageSlot) (s : MessageSlot)
    (post : List MessageSlot)
    (hpre : ∀ t ∈ pre, t.ref_count ≠ 0 ∧
      (rel = true → t.reliable_ref_count ≤ 0))
    (hs0 : s.ref_count = 0) (hsr : rel = true → s.reliable_ref_count ≤ 0) :
    scanActiveForFree rel (pre ++ s :: post) = some s := by
  induction pre with
  | nil =>
    rw [List.nil_append]
    unfold scanActiveForFree
    rw [if_neg (fun hc : rel = true ∧ 0 < s.reliable_ref_count =>
        absurd hc.2 (not_lt.mpr (hsr hc.1))), if_pos hs0]
  | cons t rest ih =>
    have ht := hpre t (List.mem_cons_self t rest)
    rw [List.cons_append]
    unfold scanActiveForFree
    rw [if_neg (fun hc : rel = true ∧ 0 < t.reliable_ref_count =>
        absurd hc.2 (not_lt.mpr (ht.2 hc.1))),
      if_neg ht.1]
    exact ih fun u hu => hpre u (List.mem_cons_of_mem t hu)

/-- C7: the FindFreeSlot allocation policy.  (1) When the free list is
non-empty its head is returned (stamped with the caller as owner).
With an empty free list: (2) positioned at any decomposition of the
active list whose earlier slots are all referenced (and, for a
reliable call, none of them owes a reliable read), a reliable call
stops and returns none at a slot with a positive reliable ref count —
it never skips past it — while the slot is returned if it is
unreferenced and not itself a stopping slot; (3) when every active
slot is referenced, no slot is returned at all. -/
theorem findFreeSlot_allocation_policy (ccb : ChannelCCB) (reliable : Bool)
    (owner : Nat) :
    (∀ s rest, ccb.free_list = s :: rest →
      (FindFreeSlot ccb reliable owner).1 = some { s with owners := [owner] }) ∧
    (ccb.free_list = [] → ∀ pre s post, ccb.active_list = pre ++ s :: post →
      (∀ t ∈ pre, t.ref_count ≠ 0 ∧
        (reliable = true → t.reliable_ref_count ≤ 0)) →
      ((reliable = true → 0 < s.reliable_ref_count →
        (FindFreeSlot ccb reliable owner).1 = none) ∧
       (s.ref_count = 0 → (reliable = true → s.reliable_ref_count ≤ 0) →
        (FindFreeSlot ccb reliable owner).1 =
          some { s with owners := [owner] }))) ∧
    (ccb.free_list = [] → (∀ t ∈ ccb.active_list, t.ref_count ≠ 0) →
      (FindFreeSlot ccb reliable owner).1 = none) := by
  refine ⟨?_, ?_, ?_⟩
  · intro s rest hfree
    unfold FindFreeSlot
    rw [hfree]
  · intro hfree pre s post hact hpre
    constructor
    · intro hrel hs
      subst hrel
      unfold FindFreeSlot
      rw [hfree, hact,
        scan_stops pre s post (fun t ht => ⟨(hpre t ht).1, (hpre t ht).2 rfl⟩) hs]
    · intro hs0 hsr
      unfold FindFreeSlot
      rw [hfree, hact, scan_finds reliable pre s post hpre hs0 hsr]
  · intro hfree hall
    unfold FindFreeSlot
    rw [hfree, scan_exhaust reliable ccb.active_list hall]

/-- Witness slot for the C7 free-list case. -/
def freeHeadSlot : MessageSlot := ⟨0, 0, 0, 0, 0, [], ⟨0, 0, 0, 0⟩⟩

/-- Witness for C7: on a channel whose free list holds one slot, a
reliable FindFreeSlot returns that slot stamped with owner 5. -/
theorem findFreeSlot_allocation_policy_witness :
    (⟨1, 64, 1, 0, 0, [], [], [freeHeadSlot]⟩ : ChannelCCB).free_list =
      freeHeadSlot :: [] ∧
    (FindFreeSlot ⟨1, 64, 1, 0, 0, [], [], [freeHeadSlot]⟩ true 5).1 =
      some { freeHeadSlot with owners := [5] } :=
  ⟨rfl, (findFreeSlot_allocation_policy
    ⟨1, 64, 1, 0, 0, [], [], [freeHeadSlot]⟩ true 5).1 freeHeadSlot [] rfl⟩

/-- A read with pass_activation false never hands the caller a message
taken from a slot whose prefix carries the Activate flag. -/
lemma read_from_slot_not_activation (fuel : Nat) :
    ∀ (sub : SubscriberState) (active : List MessageSlot) (mode : ReadMode)
      (clear : Bool) (s : MessageSlot),
    (ReadMessageInternalF fuel sub active mode false clear).from_slot =
      some s →
    s.pfx.flags &&& kMessageActivate = 0 := by
  induction fuel with
  | zero =>
    intro sub active mode clear s h
    simp [ReadMessageInternalF] at h
  | succ n ih =>
    intro sub active mode clear s h
    unfold ReadMessageInternalF at h
    rcases hstep : readStep sub active mode with ⟨os, a1⟩
    rw [hstep] at h
    rcases os with _ | ns
    · simp at h
    · dsimp only at h
      by_cases hc : ns.pfx.flags &&& kMessageActivate = 0
      · rw [if_neg (fun hcc :
            ns.pfx.flags &&& kMessageActivate ≠ 0 ∧ false = false =>
            hcc.1 hc)] at h
        simp at h
        rw [← h]
        exact hc
      · rw [if_pos (⟨hc, rfl⟩ :
            ns.pfx.flags &&& kMessageActivate ≠ 0 ∧ false = false)] at h
        simp only at h
        exact ih _ _ _ _ _ h

/-- C4: activation messages are filtered from normal reads.  No default
read ever returns a message from an Activate-flagged slot; a read whose
next slot carries the Activate flag skips it and returns the following
message, or the empty Message when nothing follows; only a read with
pass_activation true delivers the activation message itself. -/
theorem activation_messages_filtered (a b : MessageSlot)
    (sub : SubscriberState) (hcur : sub.current_slot = none)
    (ha : a.pfx.flags &&& kMessageActivate ≠ 0)
    (hb : b.pfx.flags &&& kMessageActivate = 0) (hid : b.id ≠ a.id) :
    (∀ fuel sub2 active mode clear s,
      (ReadMessageInternalF fuel sub2 active mode false clear).from_slot =
        some s →
      s.pfx.flags &&& kMessageActivate = 0) ∧
    (ReadMessageInternalF 3 sub [a, b] .kReadNext false true).msg =
      ⟨b.message_size, b.ordinal, b.pfx.timestamp, true⟩ ∧
    (ReadMessageInternalF 2 sub [a] .kReadNext false true).msg =
      Message.empty ∧
    (ReadMessageInternalF 3 sub [a, b] .kReadNext true true).msg =
      ⟨a.message_size, a.ordinal, a.pfx.timestamp, true⟩ := by
  refine ⟨fun fuel => read_from_slot_not_activation fuel, ?_, ?_, ?_⟩
  · simp [ReadMessageInternalF, readStep, NextSlot, acquireTarget, updSlot,
      listSucc, hcur, hid, ha, hb]
  · simp [ReadMessageInternalF, readStep, NextSlot, acquireTarget, updSlot,
      listSucc, hcur, ha]
  · simp [ReadMessageInternalF, readStep, NextSlot, acquireTarget, updSlot,
      listSucc, hcur, ha]

/-- Activation slot for the C4 witness (flags carry the Activate bit). -/
def actSlot : MessageSlot := ⟨1, 0, 1, 1, 1, [], ⟨1, 1, 50, 1⟩⟩

/-- Ordinary slot following the activation slot in the C4 witness. -/
def normSlot : MessageSlot := ⟨2, 0, 0, 2, 8, [], ⟨8, 2, 60, 0⟩⟩

/-- Witness for C4: a fresh subscriber on an active list holding the
activation message and one ordinary message reads the ordinary one. -/
theorem activation_messages_filtered_witness :
    (⟨4, true, 2, 64, 0, none, false⟩ : SubscriberState).current_slot =
      none ∧
    actSlot.pfx.flags &&& kMessageActivate ≠ 0 ∧
    normSlot.pfx.flags &&& kMessageActivate = 0 ∧
    normSlot.id ≠ actSlot.id ∧
    (ReadMessageInternalF 3 ⟨4, true, 2, 64, 0, none, false⟩
        [actSlot, normSlot] .kReadNext false true).msg =
      ⟨normSlot.message_size, normSlot.ordinal, normSlot.pfx.timestamp,
        true⟩ :=
  ⟨rfl, by decide, by decide, by decide,
    (activation_messages_filtered actSlot normSlot
      ⟨4, true, 2, 64, 0, none, false⟩ rfl (by decide) (by decide)
      (by decide)).2.1⟩

/-- C3: on a fresh channel (empty active list, free slots available) a
reliable publisher is created by publishing exactly one message — its
slot and prefix carry message_size 1 and the prefix carries the
Activate flag — after which the publisher holds no slot (Idle); an
unreliable publisher publishes nothing at creation (the active list
stays empty) and starts out holding a writable slot. -/
theorem reliable_publisher_sends_single_activation (pub : PublisherState)
    (ccb : ChannelCCB) (now : Int) (s : MessageSlot)
    (rest : List MessageSlot) (hfree : ccb.free_list = s :: rest)
    (hact : ccb.active_list = []) :
    (pub.is_reliable = true →
      ∃ pub2 ccb2, CreatePublisherSlots pub ccb now = .ok (pub2, ccb2) ∧
        pub2.current_slot = none ∧
        ccb2.active_list.length = 1 ∧
        ∀ t ∈ ccb2.active_list,
          t.pfx.flags &&& kMessageActivate ≠ 0 ∧ t.pfx.message_size = 1 ∧
          t.message_size = 1) ∧
    (pub.is_reliable = false →
      ∃ pub2 ccb2 sl, CreatePublisherSlots pub ccb now = .ok (pub2, ccb2) ∧
        pub2.current_slot = some sl ∧ ccb2.active_list = []) := by
  obtain ⟨nsl, ssz, no, tb, tm, act, busy, free⟩ := ccb
  simp only at hfree hact
  subst hfree hact
  constructor
  · intro hrel
    unfold CreatePublisherSlots
    rw [hrel, if_neg (by simp)]
    unfold ActivateReliableChannel FindFreeSlot getCurrentBufferAddress
      ActivateSlotAndGetAnother
    dsimp only
    refine ⟨_, _, rfl, rfl, rfl, ?_⟩
    intro t ht
    simp at ht
    subst ht
    refine ⟨?_, rfl, rfl⟩
    show kMessageActivate &&& kMessageActivate ≠ 0
    decide
  · intro hrel
    unfold CreatePublisherSlots
    rw [hrel, if_pos rfl]
    unfold FindFreeSlot
    dsimp only
    exact ⟨_, _, _, rfl, rfl, rfl⟩

/-- Fresh one-free-slot channel for the C3 witness. -/
def freshCCB : ChannelCCB := ⟨2, 64, 1, 0, 0, [], [], [freeHeadSlot]⟩

/-- Witness for C3: creating a reliable publisher on the fresh channel
leaves exactly one active slot, an activation message of size 1, and no
held slot. -/
theorem reliable_publisher_sends_single_activation_witness :
    freshCCB.free_list = freeHeadSlot :: [] ∧
    freshCCB.active_list = [] ∧
    (⟨3, true, none, 0⟩ : PublisherState).is_reliable = true ∧
    (∃ pub2 ccb2, CreatePublisherSlots ⟨3, true, none, 0⟩ freshCCB 500 =
        .ok (pub2, ccb2) ∧
      pub2.current_slot = none ∧
      ccb2.active_list.length = 1 ∧
      ∀ t ∈ ccb2.active_list,
        t.pfx.flags &&& kMessageActivate ≠ 0 ∧ t.pfx.message_size = 1 ∧
        t.message_size = 1) :=
  ⟨rfl, rfl, rfl,
    (reliable_publisher_sends_single_activation ⟨3, true, none, 0⟩ freshCCB
      500 freeHeadSlot [] rfl rfl).1 rfl⟩

end Subspace
